import Mathlib

/-
Verification of the sub-agent orchestration core of the repository
(crates/chat-cli/src/cli/chat/tools/launch_agent.rs and
crates/chat-cli/src/cli/chat/io_traits.rs) against its specification.

Text is modelled as List Char (the Rust code works on UTF-8 strings; the
case folding and whitespace predicates are modelled at the ASCII level,
which covers the literal tags and messages the code uses).
-/

/- ===================== Summary extraction =====================
Source: launch_agent.rs lines 400-406.  The code runs the regex
  (?is)\[SUMMARY]\s*(.*?)\s*\[/SUMMARY]
over the captured transcript and, on a match, returns capture group 1
trimmed; otherwise the whole transcript is returned unchanged (line 418).

The regex denotation on this concrete pattern: the match starts at the
first case-insensitive occurrence of "[summary]" that is followed
(anywhere later) by a case-insensitive "[/summary]"; the lazy middle
group makes the match end at the first such closing tag; the group, after
the surrounding greedy whitespace runs and the subsequent .trim(), is the
text strictly between the two tags with whitespace trimmed on both sides.
The (s) flag only means the scan crosses newlines, which a character-list
scan does by construction. -/

/-- Lowercase every character (models the (?i) flag at the ASCII level). -/
def lowerList (s : List Char) : List Char := s.map Char.toLower

/-- Does the case-insensitive tag occur at the head of s. -/
def tagAt (tag s : List Char) : Bool := lowerList (s.take tag.length) == tag

/-- The literal opening tag, lowercased. -/
def openTag : List Char := ['[', 's', 'u', 'm', 'm', 'a', 'r', 'y', ']']

/-- The opening tag without its first character. -/
def openTagTail : List Char := ['s', 'u', 'm', 'm', 'a', 'r', 'y', ']']

/-- The literal closing tag, lowercased. -/
def closeTag : List Char := ['[', '/', 's', 'u', 'm', 'm', 'a', 'r', 'y', ']']

/-- The closing tag without its first character. -/
def closeTagTail : List Char := ['/', 's', 'u', 'm', 'm', 'a', 'r', 'y', ']']

/-- Characters strictly before the first case-insensitive closing tag,
or none when no closing tag occurs. -/
def splitAtClose : List Char → Option (List Char)
  | [] => none
  | c :: cs =>
    if tagAt closeTag (c :: cs) then some []
    else
      match splitAtClose cs with
      | some b => some (c :: b)
      | none => none

/-- Capture group 1 of the source regex: the text strictly between the
first opening tag (that has a closing tag after it) and the first closing
tag after it.  None when the regex does not match. -/
def findSummary : List Char → Option (List Char)
  | [] => none
  | c :: cs =>
    if tagAt openTag (c :: cs) then
      match splitAtClose (cs.drop 8) with
      | some b => some b
      | none => findSummary cs
    else findSummary cs

/-- Models str::trim: drop whitespace from both ends. -/
def trimList (s : List Char) : List Char :=
  ((s.dropWhile Char.isWhitespace).reverse.dropWhile Char.isWhitespace).reverse

/-- Summary extraction with the documented fallback (lines 400-406 and 418):
the trimmed capture when the regex matches, the whole transcript otherwise. -/
def extract_summary (s : List Char) : List Char :=
  match findSummary s with
  | some b => trimList b
  | none => s

theorem splitAtClose_cons (c : Char) (cs : List Char) :
    splitAtClose (c :: cs) =
      if tagAt closeTag (c :: cs) then some []
      else
        match splitAtClose cs with
        | some b => some (c :: b)
        | none => none := rfl

theorem findSummary_cons (c : Char) (cs : List Char) :
    findSummary (c :: cs) =
      if tagAt openTag (c :: cs) then
        match splitAtClose (cs.drop 8) with
        | some b => some b
        | none => findSummary cs
      else findSummary cs := rfl

theorem tagAt_append_self (tag rest : List Char) (h : lowerList tag = tag) :
    tagAt tag (tag ++ rest) = true := by
  unfold tagAt
  rw [List.take_left, h]
  exact beq_self_eq_true tag

theorem splitAtClose_eq (mid post : List Char)
    (h : ∀ j, j < mid.length → tagAt closeTag ((mid ++ closeTag ++ post).drop j) = false) :
    splitAtClose (mid ++ closeTag ++ post) = some mid := by
  induction mid with
  | nil =>
    have e : ([] : List Char) ++ closeTag ++ post = '[' :: (closeTagTail ++ post) := rfl
    rw [e, splitAtClose_cons]
    have ht : tagAt closeTag ('[' :: (closeTagTail ++ post)) = true := by
      have h2 := tagAt_append_self closeTag post (by decide)
      exact h2
    rw [ht]
    simp
  | cons c mid ih =>
    have h0 : tagAt closeTag (c :: (mid ++ closeTag ++ post)) = false := by
      have h1 := h 0 (Nat.succ_pos _)
      simpa using h1
    show splitAtClose (c :: (mid ++ closeTag ++ post)) = some (c :: mid)
    rw [splitAtClose_cons, h0]
    have hrec : splitAtClose (mid ++ closeTag ++ post) = some mid := by
      apply ih
      intro j hj
      have h2 := h (j + 1) (by simp only [List.length_cons]; omega)
      simpa using h2
    simp only [Bool.false_eq_true, if_false, hrec]

theorem findSummary_eq (pre mid post : List Char)
    (hpre : ∀ i, i < pre.length →
      tagAt openTag ((pre ++ openTag ++ mid ++ closeTag ++ post).drop i) = false)
    (hmid : ∀ j, j < mid.length → tagAt closeTag ((mid ++ closeTag ++ post).drop j) = false) :
    findSummary (pre ++ openTag ++ mid ++ closeTag ++ post) = some mid := by
  induction pre with
  | nil =>
    have e : ([] : List Char) ++ openTag ++ mid ++ closeTag ++ post =
        '[' :: (((openTagTail ++ mid) ++ closeTag) ++ post) := rfl
    rw [e, findSummary_cons]
    have ht : tagAt openTag ('[' :: (((openTagTail ++ mid) ++ closeTag) ++ post)) = true := by
      have h2 := tagAt_append_self openTag ((mid ++ closeTag) ++ post) (by decide)
      have e2 : openTag ++ ((mid ++ closeTag) ++ post) =
          '[' :: (((openTagTail ++ mid) ++ closeTag) ++ post) := by
        simp [openTag, openTagTail, List.append_assoc]
      rwa [e2] at h2
    rw [ht]
    have hd : ((((openTagTail ++ mid) ++ closeTag) ++ post)).drop 8 =
        (mid ++ closeTag) ++ post := by
      have e3 : ((openTagTail ++ mid) ++ closeTag) ++ post =
          openTagTail ++ ((mid ++ closeTag) ++ post) := by
        simp [List.append_assoc]
      rw [e3]
      have e4 : (8 : Nat) = openTagTail.length := rfl
      rw [e4, List.drop_left]
    rw [hd, splitAtClose_eq mid post hmid]
    simp
  | cons c pre ih =>
    have h0 : tagAt openTag (c :: (((pre ++ openTag) ++ mid ++ closeTag) ++ post)) = false := by
      have h1 := hpre 0 (Nat.succ_pos _)
      simpa using h1
    show findSummary (c :: (((pre ++ openTag) ++ mid ++ closeTag) ++ post)) = some mid
    rw [findSummary_cons, h0]
    apply ih
    intro i hi
    have h2 := hpre (i + 1) (by simp only [List.length_cons]; omega)
    simpa using h2

/-- Claim C2: for every transcript, extraction scans case-insensitively
(dot matching newlines) for the first region delimited by the literal
tags; when such a region exists the result is the enclosed text with
leading and trailing whitespace trimmed, and the transcript
"noise [SUMMARY] X [/SUMMARY] trailer" yields exactly "X"; when no region
exists the result is the entire transcript unchanged. -/
theorem claim_C2_extraction :
    (∀ pre mid post : List Char,
      (∀ i, i < pre.length →
        tagAt openTag ((pre ++ openTag ++ mid ++ closeTag ++ post).drop i) = false) →
      (∀ j, j < mid.length →
        tagAt closeTag ((mid ++ closeTag ++ post).drop j) = false) →
      extract_summary (pre ++ openTag ++ mid ++ closeTag ++ post) = trimList mid)
    ∧ (∀ s : List Char, findSummary s = none → extract_summary s = s)
    ∧ extract_summary ("noise [SUMMARY] X [/SUMMARY] trailer".data) = "X".data := by
  refine ⟨?_, ?_, by decide⟩
  · intro pre mid post hpre hmid
    unfold extract_summary
    rw [findSummary_eq pre mid post hpre hmid]
  · intro s h
    unfold extract_summary
    rw [h]

/-- Witness for claim C2 at a concrete decomposition. -/
theorem claim_C2_extraction_witness :
    extract_summary ("ab".data ++ openTag ++ "  x y  ".data ++ closeTag ++ "cd".data) =
      trimList "  x y  ".data :=
  claim_C2_extraction.1 "ab".data "  x y  ".data "cd".data (by decide) (by decide)

/-- Claim C6: extraction is idempotent on marker-free input: when the
transcript contains no marker region, extraction returns it unchanged,
so extraction applied to its own output returns the same text again. -/
theorem claim_C6_idempotent (s : List Char) (h : findSummary s = none) :
    extract_summary s = s ∧
    extract_summary (extract_summary s) = extract_summary s := by
  have h1 : extract_summary s = s := by
    unfold extract_summary
    rw [h]
  exact ⟨h1, by rw [h1, h1]⟩

/-- Witness for claim C6 on the spec example, a marker-free transcript. -/
theorem claim_C6_idempotent_witness :
    extract_summary ("plain text, no markers".data) = "plain text, no markers".data ∧
    extract_summary (extract_summary ("plain text, no markers".data)) =
      extract_summary ("plain text, no markers".data) :=
  claim_C6_idempotent ("plain text, no markers".data) (by decide)

/- ===================== Sub-agent runner =====================
Source: launch_agent.rs lines 313-458.  The embedded agent (ChatSession)
is an external collaborator; a run of one agent is modelled by the
observable trace the orchestrator core extracts from it: the status and
conversation size before the first step, the status and size reported
after each successful step, whether the step sequence eventually fails,
and the sizes queried at the two "Agent finished" send sites (lines 451
and 413).  Channel sends and the diagnostic-file writes are modelled as
succeeding; the transcript is the captured buffer content. -/

/-- One progress event (the StatusUpdate struct sent on the channel). -/
structure StatusUpdate where
  agent_id : Nat
  status : String
  tokens_used : Nat
deriving DecidableEq

/-- Observable trace of one embedded agent run. -/
structure SessionTrace where
  initialStatus : String
  initialSize : Nat
  steps : List (String × Nat)
  stepError : Bool
  finalSize : Nat
  postSize : Nat
deriving DecidableEq

/-- Build the event a send site emits for one agent. -/
def mkUpdate (id : Nat) (p : String × Nat) : StatusUpdate :=
  ⟨id, p.1, p.2⟩

/-- Source lines 424-458: send the initial status, then one status per
successful step; when a step fails, return the error without the final
send; otherwise send "Agent finished" (line 452) and return success.
Result: the emitted events and whether the loop succeeded. -/
def run_subagent_loop (t : SessionTrace) (agent_id : Nat) :
    List StatusUpdate × Bool :=
  let evs := mkUpdate agent_id (t.initialStatus, t.initialSize) ::
    t.steps.map (mkUpdate agent_id)
  if t.stepError then (evs, false)
  else (evs ++ [⟨agent_id, "Agent finished", t.finalSize⟩], true)

/-- Source lines 351-419 (the spawned task body): run the loop, read the
captured transcript, and apply the regex.  On a match, return the trimmed
capture immediately (line 404), discarding a loop error and skipping the
line 410 send.  Otherwise send a further "Agent finished" event
(line 410), then propagate a loop error (line 416) or return the whole
transcript (line 418). -/
def spawn_subagent_task (t : SessionTrace) (agent_id : Nat)
    (transcript : List Char) : List StatusUpdate × Except Unit (List Char) :=
  let loopResult := run_subagent_loop t agent_id
  match findSummary transcript with
  | some b => (loopResult.1, Except.ok (trimList b))
  | none =>
    let evs := loopResult.1 ++ [⟨agent_id, "Agent finished", t.postSize⟩]
    if loopResult.2 then (evs, Except.ok transcript)
    else (evs, Except.error ())

/-- Number of events for the given agent carrying the terminal status. -/
def finishedCount (id : Nat) (evs : List StatusUpdate) : Nat :=
  evs.countP (fun e => e.agent_id == id && e.status == "Agent finished")

/-- A concrete successful run whose transcript has no marker. -/
def noMarkerTrace : SessionTrace :=
  ⟨"Thinking", 0, [], false, 5, 5⟩

/-- Claim C1 is false on the code: in a run whose step sequence succeeds
and whose transcript has no marker, the runner emits the terminal status
twice (line 452 and line 410), not exactly once. -/
theorem claim_C1_counterexample :
    finishedCount 0 (spawn_subagent_task noMarkerTrace 0 "hello".data).1 = 2 ∧
    (2 : Nat) ≠ 1 := by
  constructor
  · decide
  · decide

/-- Claim C1 (amended): provided the collaborator never reports the
reserved status text itself, the number of terminal "Agent finished"
events for an agent equals (1 if the transcript has no marker, else 0)
plus (1 if the step sequence succeeded, else 0): one send comes from the
normal loop completion and one from the forced no-marker path, so the
count is 2 for a successful run without a marker and 0 for a failed run
whose transcript has a marker. -/
theorem claim_C1_amended (t : SessionTrace) (id : Nat) (transcript : List Char)
    (h0 : t.initialStatus ≠ "Agent finished")
    (hs : ∀ p ∈ t.steps, p.1 ≠ "Agent finished") :
    finishedCount id (spawn_subagent_task t id transcript).1 =
      (if (findSummary transcript).isSome then 0 else 1) +
        (if t.stepError then 0 else 1) := by
  have hstep : List.countP
      ((fun e => e.agent_id == id && e.status == "Agent finished") ∘ mkUpdate id)
      t.steps = 0 := by
    rw [List.countP_eq_zero]
    intro p hp
    simp [mkUpdate, hs p hp]
  unfold spawn_subagent_task run_subagent_loop finishedCount
  cases hf : findSummary transcript <;> cases he : t.stepError <;>
    simp [hf, he, hstep, List.countP_append, List.countP_cons, List.countP_map,
      mkUpdate, h0]

/-- A concrete trace with one successful step and a marker transcript. -/
def markerTrace : SessionTrace :=
  ⟨"Thinking", 0, [("Working", 3)], false, 5, 5⟩

/-- Witness for the amended claim C1 at a concrete run. -/
theorem claim_C1_amended_witness :
    finishedCount 0
        (spawn_subagent_task markerTrace 0 "a [summary] ok [/summary] b".data).1 =
      (if (findSummary "a [summary] ok [/summary] b".data).isSome then 0 else 1) +
        (if markerTrace.stepError then 0 else 1) :=
  claim_C1_amended markerTrace 0 "a [summary] ok [/summary] b".data
    (by decide) (by decide)

/-- A concrete trace whose step sequence fails. -/
def failingTrace : SessionTrace :=
  ⟨"Thinking", 0, [], true, 5, 5⟩

/-- Claim C3: the runner result is Failure exactly when the transcript
has no marker region and the step sequence returned an error; when a
marker is present the runner returns Success with the extracted summary
even if the step sequence failed. -/
theorem claim_C3_failure_iff (t : SessionTrace) (id : Nat) (transcript : List Char) :
    ((spawn_subagent_task t id transcript).2 = Except.error () ↔
      findSummary transcript = none ∧ t.stepError = true) ∧
    (∀ b, findSummary transcript = some b →
      (spawn_subagent_task t id transcript).2 = Except.ok (trimList b)) := by
  unfold spawn_subagent_task run_subagent_loop
  cases hf : findSummary transcript <;> cases he : t.stepError <;> simp [hf, he]

/-- Witness for claim C3: a failed step sequence with a marker transcript
still yields Success with the extracted summary. -/
theorem claim_C3_failure_iff_witness :
    (spawn_subagent_task failingTrace 0 "x [summary] hi [/summary] y".data).2 =
      Except.ok (trimList " hi ".data) :=
  (claim_C3_failure_iff failingTrace 0 "x [summary] hi [/summary] y".data).2
    " hi ".data (by decide)

/- ===================== Result aggregator =====================
Source: launch_agent.rs lines 461-497 (process_agent_results).  A task
result is Ok(Ok(text)), Ok(Err(error)) or Err(join error); the function
folds over the delivered results, appending a numbered section per
non-empty success to the combined report and queueing one red error line
per failure or join error on the display sink (colour control codes are
elided; the text of each line is modelled). -/

/-- One delivered task result. -/
inductive TaskResult where
  | ok (output : String)
  | err (msg : String)
  | joinErr (msg : String)
deriving DecidableEq

/-- Rust str::trim().is_empty() on the text, via the char-list model. -/
def trimIsEmpty (s : String) : Bool := (trimList s.data).isEmpty

/-- The numbered section header and body pushed for one success
(lines 472-474). -/
def sectionLabel (i : Nat) (s : String) : String :=
  "=== Agent " ++ toString i ++ " Output ===\n" ++ s ++ "\n\n"

/-- The display line for a reported agent failure (line 482). -/
def failedLine (e : String) : String :=
  "Failed to launch agent: " ++ e ++ "\n"

/-- The display line for a task join error (line 490). -/
def joinErrLine (e : String) : String :=
  "Task join error: " ++ e ++ "\n"

/-- The loop of process_agent_results: all_stdout accumulates the report,
errs the error lines written to the display sink, i the next label. -/
def processLoop : List TaskResult → Nat → String → List String → String × List String
  | [], _, all_stdout, errs => (all_stdout, errs)
  | TaskResult.ok s :: rest, i, all_stdout, errs =>
    if trimIsEmpty s then processLoop rest i all_stdout errs
    else processLoop rest (i + 1) (all_stdout ++ sectionLabel i s) errs
  | TaskResult.err e :: rest, i, all_stdout, errs =>
    processLoop rest i all_stdout (errs ++ [failedLine e])
  | TaskResult.joinErr e :: rest, i, all_stdout, errs =>
    processLoop rest i all_stdout (errs ++ [joinErrLine e])

/-- process_agent_results: the combined report and the error lines, with
the label counter starting at 1 (line 467). -/
def process_agent_results (results : List TaskResult) : String × List String :=
  processLoop results 1 "" []

/-- The successes whose text is non-empty after trimming, in order. -/
def nonEmptySuccesses (results : List TaskResult) : List String :=
  results.filterMap fun r =>
    match r with
    | TaskResult.ok s => if trimIsEmpty s then none else some s
    | TaskResult.err _ => none
    | TaskResult.joinErr _ => none

/-- The combined report the spec describes: the kept texts under
sequential labels starting at the given number. -/
def specReport : List String → Nat → String
  | [], _ => ""
  | s :: rest, k => sectionLabel k s ++ specReport rest (k + 1)

/-- One error line per failure or crash, in delivery order. -/
def errLines (results : List TaskResult) : List String :=
  results.filterMap fun r =>
    match r with
    | TaskResult.ok _ => none
    | TaskResult.err e => some (failedLine e)
    | TaskResult.joinErr e => some (joinErrLine e)

theorem processLoop_spec (rs : List TaskResult) (i : Nat) (acc : String)
    (errs : List String) :
    processLoop rs i acc errs =
      (acc ++ specReport (nonEmptySuccesses rs) i, errs ++ errLines rs) := by
  induction rs generalizing i acc errs with
  | nil => simp [processLoop, specReport, nonEmptySuccesses, errLines,
      String.append_empty]
  | cons r rest ih =>
    cases r with
    | ok s =>
      cases hs : trimIsEmpty s with
      | true =>
        simp [processLoop, hs, ih, nonEmptySuccesses, errLines]
      | false =>
        simp [processLoop, hs, ih, nonEmptySuccesses, errLines, specReport,
          String.append_assoc]
    | err e =>
      simp [processLoop, ih, nonEmptySuccesses, errLines, List.append_assoc]
    | joinErr e =>
      simp [processLoop, ih, nonEmptySuccesses, errLines, List.append_assoc]

/-- Claim C4: the combined report consists of exactly the non-empty
trimmed successes, each under a sequential label starting at 1 that
increments only for such successes; empty successes contribute nothing;
each failure or join error contributes one error line on the display
sink, with distinct text for the two kinds; and the delivery order
(failure, success "A", success "B") yields exactly the sections numbered
1 and 2 holding "A" then "B" plus one error line. -/
theorem claim_C4_aggregation :
    (∀ rs : List TaskResult,
      process_agent_results rs = (specReport (nonEmptySuccesses rs) 1, errLines rs))
    ∧ (∀ e f : String, failedLine e ≠ joinErrLine f)
    ∧ process_agent_results [TaskResult.err "boom", TaskResult.ok "A", TaskResult.ok "B"] =
        (sectionLabel 1 "A" ++ sectionLabel 2 "B", [failedLine "boom"]) := by
  refine ⟨?_, ?_, ?_⟩
  · intro rs
    unfold process_agent_results
    rw [processLoop_spec]
    simp
  · intro e f h
    have h2 : (failedLine e).data = (joinErrLine f).data := by rw [h]
    rw [failedLine, joinErrLine] at h2
    simp [String.data_append] at h2
  · decide

/-- Witness for claim C4: an empty success is dropped and does not
advance the label counter. -/
theorem claim_C4_aggregation_witness :
    process_agent_results [TaskResult.ok "   ", TaskResult.ok "hi"] =
      (specReport (nonEmptySuccesses [TaskResult.ok "   ", TaskResult.ok "hi"]) 1,
        errLines [TaskResult.ok "   ", TaskResult.ok "hi"]) :=
  claim_C4_aggregation.1 [TaskResult.ok "   ", TaskResult.ok "hi"]

/- ===================== Output sink (buffer variant) =====================
Source: io_traits.rs lines 34-64.  BufferedIO holds one growable byte
buffer; both the structured-output handle (stdout) and the display
handle (stderr) return a mutable reference to that same buffer, and the
Write implementation of a byte vector appends.  The struct is modelled
with bytes as natural numbers. -/

/-- The buffer variant of the output sink (struct BufferedIO). -/
structure BufferedSink where
  buffer : List Nat
deriving DecidableEq

/-- Source lines 40-44: a fresh sink has an empty buffer. -/
def BufferedSink.new : BufferedSink := ⟨[]⟩

/-- A write through the structured-output handle (lines 57-59). -/
def BufferedSink.writeStdout (b : BufferedSink) (data : List Nat) : BufferedSink :=
  ⟨b.buffer ++ data⟩

/-- A write through the display-output handle (lines 61-63). -/
def BufferedSink.writeStderr (b : BufferedSink) (data : List Nat) : BufferedSink :=
  ⟨b.buffer ++ data⟩

/-- One write issued through one of the two handles. -/
inductive WriteOp where
  | toStdout (data : List Nat)
  | toStderr (data : List Nat)
deriving DecidableEq

/-- The byte string a write carries, whichever handle it uses. -/
def WriteOp.data : WriteOp → List Nat
  | toStdout d => d
  | toStderr d => d

/-- Apply a sequence of writes in issue order. -/
def applyWrites (b : BufferedSink) : List WriteOp → BufferedSink
  | [] => b
  | WriteOp.toStdout d :: rest => applyWrites (b.writeStdout d) rest
  | WriteOp.toStderr d :: rest => applyWrites (b.writeStderr d) rest

theorem applyWrites_buffer (b : BufferedSink) (ops : List WriteOp) :
    (applyWrites b ops).buffer = b.buffer ++ (ops.map WriteOp.data).flatten := by
  induction ops generalizing b with
  | nil => simp [applyWrites]
  | cons op rest ih =>
    cases op <;>
      simp [applyWrites, BufferedSink.writeStdout, BufferedSink.writeStderr,
        WriteOp.data, ih]

/-- Claim C7: in the buffer variant both handles write into the one
growable buffer: after any sequence of writes through either handle, the
buffer equals the concatenation of all written byte strings in issue
order. -/
theorem claim_C7_buffer_interleaving (ops : List WriteOp) :
    (applyWrites BufferedSink.new ops).buffer = (ops.map WriteOp.data).flatten := by
  have h := applyWrites_buffer BufferedSink.new ops
  simpa [BufferedSink.new] using h

/- ===================== Launch effects =====================
Source: launch_agent.rs lines 74-88 (SubAgentWrapper::invoke) and
135-188 (SubAgent::invoke up to the spawn loop).  The side effects a
launch performs, in program order: create the unbounded status channel
(line 166), truncate debug.log (line 169), then for every agent in list
order the synchronous part of spawn_subagent: create a broadcast channel
of capacity 4 together with its receiver (line 325), spawn the ctrl-c
listener task (line 326), and spawn the runner task holding that
receiver (line 351).  The async select loop consumes the abstract task
results, which are threaded in as a parameter. -/

/-- One agent spec (struct SubAgent, lines 56-66). -/
structure SubAgent where
  agent_display_name : String
  prompt : String
  prompt_summary : String
  agent_cli_name : Option String
deriving DecidableEq

/-- One observable side effect of a launch. -/
inductive Effect where
  | createStatusChannel
  | truncateDebugLog
  | createBroadcastChannel (capacity : Nat) (agent_id : Nat)
  | spawnListenerTask (agent_id : Nat)
  | spawnRunnerTask (agent_id : Nat)
deriving DecidableEq

/-- The synchronous effects of one spawn_subagent call (lines 314-351):
its own broadcast channel with capacity 4 (whose receiver the runner
takes), its own listener task, then the runner task. -/
def spawn_subagent_effects (agent_id : Nat) : List Effect :=
  [Effect.createBroadcastChannel 4 agent_id,
    Effect.spawnListenerTask agent_id,
    Effect.spawnRunnerTask agent_id]

/-- The effects of SubAgent::invoke over n agents (lines 163-188). -/
def subagent_invoke_effects (n : Nat) : List Effect :=
  Effect.createStatusChannel :: Effect.truncateDebugLog ::
    (List.range n).flatMap spawn_subagent_effects

/-- SubAgentWrapper::invoke (lines 74-88): when the Q_SUBAGENT marker is
set, return the fixed rejection text with no effects; otherwise run the
launch, whose delivered task results feed process_agent_results.  The
first component is the returned text, the second the display error
lines, the third the performed effects. -/
def SubAgentWrapper_invoke (q_subagent_env_set : Bool) (agents : List SubAgent)
    (results : List TaskResult) : String × List String × List Effect :=
  if q_subagent_env_set then
    ("Nested subagent launch prevented for performance reasons.", [], [])
  else
    let r := process_agent_results results
    (r.1, r.2, subagent_invoke_effects agents.length)

/-- Is the effect the spawn of a runner task. -/
def isRunnerSpawn : Effect → Bool
  | Effect.spawnRunnerTask _ => true
  | _ => false

/-- Is the effect the spawn of an interrupt listener task. -/
def isListenerSpawn : Effect → Bool
  | Effect.spawnListenerTask _ => true
  | _ => false

/-- Is the effect the creation of a broadcast channel. -/
def isBroadcastCreate : Effect → Bool
  | Effect.createBroadcastChannel _ _ => true
  | _ => false

/-- Claim C5: with the process-wide marker set, every launch request
returns exactly the fixed rejection text, spawns zero runners, and
performs no side effects at all: in particular debug.log is not
truncated and no channel or task is created. -/
theorem claim_C5_nested_guard (agents : List SubAgent) (results : List TaskResult) :
    (SubAgentWrapper_invoke true agents results).1 =
        "Nested subagent launch prevented for performance reasons." ∧
    (SubAgentWrapper_invoke true agents results).2.2 = [] ∧
    (SubAgentWrapper_invoke true agents results).2.2.countP isRunnerSpawn = 0 ∧
    Effect.truncateDebugLog ∉ (SubAgentWrapper_invoke true agents results).2.2 := by
  refine ⟨rfl, rfl, rfl, ?_⟩
  simp [SubAgentWrapper_invoke]

/-- Claim C8 is false on the code: the broadcast channel and the ctrl-c
listener task are created inside spawn_subagent, once per agent, so a
launch of two agents creates two listener tasks and two broadcast
channels, not one process-wide pair. -/
theorem claim_C8_counterexample :
    (subagent_invoke_effects 2).countP isListenerSpawn = 2 ∧
    (subagent_invoke_effects 2).countP isBroadcastCreate = 2 ∧
    (2 : Nat) ≠ 1 := by
  decide

/-- Claim C8 (amended): a launch of n agents creates one broadcast
channel and one listener task per runner, n of each, not one shared
pair; every created channel has capacity 4; and within each runner's
spawn sequence the channel together with the receiver the runner holds
is created before the runner task is spawned. -/
theorem countP_flatMap_spawn (p : Effect → Bool)
    (h : ∀ i, (spawn_subagent_effects i).countP p = 1) (n : Nat) :
    ((List.range n).flatMap spawn_subagent_effects).countP p = n := by
  induction n with
  | zero => simp
  | succ m ih =>
    rw [List.range_succ, List.flatMap_append, List.countP_append, ih]
    simp [h]

theorem claim_C8_amended (n : Nat) :
    (subagent_invoke_effects n).countP isListenerSpawn = n ∧
    (subagent_invoke_effects n).countP isBroadcastCreate = n ∧
    (∀ c i, Effect.createBroadcastChannel c i ∈ subagent_invoke_effects n → c = 4) ∧
    (∀ i, spawn_subagent_effects i =
      [Effect.createBroadcastChannel 4 i,
        Effect.spawnListenerTask i,
        Effect.spawnRunnerTask i]) := by
  refine ⟨?_, ?_, ?_, fun i => rfl⟩
  · have h1 : ∀ i, (spawn_subagent_effects i).countP isListenerSpawn = 1 := by
      intro i
      simp [spawn_subagent_effects, List.countP_cons, isListenerSpawn]
    simp [subagent_invoke_effects, List.countP_cons, isListenerSpawn,
      countP_flatMap_spawn isListenerSpawn h1 n]
  · have h1 : ∀ i, (spawn_subagent_effects i).countP isBroadcastCreate = 1 := by
      intro i
      simp [spawn_subagent_effects, List.countP_cons, isBroadcastCreate]
    simp [subagent_invoke_effects, List.countP_cons, isBroadcastCreate,
      countP_flatMap_spawn isBroadcastCreate h1 n]
  · intro c i hmem
    unfold subagent_invoke_effects at hmem
    rcases List.mem_cons.mp hmem with h | h
    · cases h
    rcases List.mem_cons.mp h with h2 | h2
    · cases h2
    obtain ⟨j, _, hj⟩ := List.mem_flatMap.mp h2
    unfold spawn_subagent_effects at hj
    rcases List.mem_cons.mp hj with h3 | h3
    · injection h3 with hc hi
    rcases List.mem_cons.mp h3 with h4 | h4
    · cases h4
    rcases List.mem_cons.mp h4 with h5 | h5
    · cases h5
    · cases h5

/-- Witness for the amended claim C8 at a three-agent launch. -/
theorem claim_C8_amended_witness :
    (subagent_invoke_effects 3).countP isListenerSpawn = 3 ∧ (4 : Nat) = 4 :=
  ⟨(claim_C8_amended 3).1, (claim_C8_amended 3).2.2.1 4 0 (by decide)⟩

/- ===================== Validation =====================
Source: launch_agent.rs lines 305-311 (SubAgent::validate). -/

/-- SubAgent::validate: reject a prompt that is empty after trimming. -/
def validate (a : SubAgent) : Except String Unit :=
  if trimIsEmpty a.prompt then Except.error "Prompt cannot be empty"
  else Except.ok ()

/-- Modelled from the spec: the tool dispatch that runs validate before a
launch is not part of src/ (only validate itself is); per the spec,
validation failure is surfaced before any task is spawned and aborts
that agent, so a failing spec yields no spawn effects. -/
def dispatch_agent (a : SubAgent) (agent_id : Nat) : List Effect :=
  match validate a with
  | Except.error _ => []
  | Except.ok _ => spawn_subagent_effects agent_id

/-- Claim C9: validation errors exactly when the prompt is empty or
whitespace-only after trimming, and under the spec-modelled dispatch the
failure is surfaced before any runner task is started: a failing spec
produces no effects at all. -/
theorem claim_C9_validation (a : SubAgent) (agent_id : Nat) :
    ((∃ e, validate a = Except.error e) ↔ trimIsEmpty a.prompt = true) ∧
    (trimIsEmpty a.prompt = true → dispatch_agent a agent_id = []) := by
  constructor
  · constructor
    · rintro ⟨e, he⟩
      by_cases h : trimIsEmpty a.prompt
      · exact h
      · simp [validate, h] at he
    · intro h
      exact ⟨"Prompt cannot be empty", by simp [validate, h]⟩
  · intro h
    simp [dispatch_agent, validate, h]

/-- A spec whose prompt is whitespace-only. -/
def emptyPromptAgent : SubAgent := ⟨"a", "   ", "s", none⟩

/-- Witness for claim C9: a whitespace-only prompt spawns nothing. -/
theorem claim_C9_validation_witness :
    dispatch_agent emptyPromptAgent 0 = [] :=
  (claim_C9_validation emptyPromptAgent 0).2 (by decide)

/- ===================== Status board update =====================
Source: launch_agent.rs lines 217-221: the select arm receiving a
StatusUpdate writes the new status and token count into the board entry
at agent_statuses[agent_id] via get_mut, doing nothing when the index is
out of range. -/

/-- The select-arm board update (lines 219-221). -/
def applyStatusUpdate (board : List (String × Nat)) (u : StatusUpdate) :
    List (String × Nat) :=
  match board[u.agent_id]? with
  | some _ => board.set u.agent_id (u.status, u.tokens_used)
  | none => board

/-- Claim C10: a progress event whose agent_id is outside the board is
handled totally: the update is a no-op, and every board entry, read back
at any index, is unchanged. -/
theorem claim_C10_out_of_range (board : List (String × Nat)) (u : StatusUpdate)
    (h : board.length ≤ u.agent_id) :
    applyStatusUpdate board u = board ∧
    ∀ i : Nat, (applyStatusUpdate board u)[i]? = board[i]? := by
  have hnone : board[u.agent_id]? = none := by
    rw [List.getElem?_eq_none_iff]
    exact h
  have heq : applyStatusUpdate board u = board := by
    unfold applyStatusUpdate
    rw [hnone]
  exact ⟨heq, fun i => by rw [heq]⟩

/-- Witness for claim C10 at a one-entry board and an event for index 5. -/
theorem claim_C10_out_of_range_witness :
    applyStatusUpdate [("a", 1)] ⟨5, "s", 2⟩ = [("a", 1)] :=
  (claim_C10_out_of_range [("a", 1)] ⟨5, "s", 2⟩ (by decide)).1

/-- Witness for claim C5 at an empty launch request. -/
theorem claim_C5_nested_guard_witness :
    (SubAgentWrapper_invoke true [] []).1 =
      "Nested subagent launch prevented for performance reasons." :=
  (claim_C5_nested_guard [] []).1

/-- Witness for claim C7 on a concrete interleaved write sequence. -/
theorem claim_C7_buffer_interleaving_witness :
    (applyWrites BufferedSink.new
        [WriteOp.toStdout [1, 2], WriteOp.toStderr [3], WriteOp.toStdout [4]]).buffer =
      (([WriteOp.toStdout [1, 2], WriteOp.toStderr [3], WriteOp.toStdout [4]]).map
        WriteOp.data).flatten :=
  claim_C7_buffer_interleaving
    [WriteOp.toStdout [1, 2], WriteOp.toStderr [3], WriteOp.toStdout [4]]
